import Mathlib

/-
Verification development for the DID zero-knowledge prototype
(package did, modules/did/did.go).

The Go service is shallowly embedded: pure logic is translated directly,
the ambient randomness of crypto/rand is made an explicit argument, and
the external cryptographic libraries (gnark, gnark-crypto) are abstracted
behind a parameter structure holding the hash, the EdDSA operations and
the gnark Assign conversions, each required to satisfy the algebraic
properties the libraries provide.  The Groth16 engine is modelled as an
idealized SNARK: proving succeeds exactly when the constraint system is
satisfied by the full witness, and a proof checks against exactly the
public-input vector it was produced for.
-/

set_option autoImplicit false

namespace DIDZK

/-- Order of the BN254 scalar field Fr, the field returned by
fr.Modulus() and ecc.BN254.ScalarField() in the source. -/
def p : Nat := 21888242871839275222246405745257275088548364400416034343698204186575808495617


/-- Big-endian bytes to integer, the semantics of big.Int SetBytes. -/
def beBytesToNat (l : List Nat) : Nat :=
  l.foldl (fun acc b => acc * 256 + b) 0

/-- Fixed-width big-endian byte encoding of an integer, zero padded to
k bytes: the serialization used by fr.Element (MiMC Sum output). -/
def natToBEFixed : Nat → Nat → List Nat
  | 0, _ => []
  | k + 1, n => natToBEFixed k (n / 256) ++ [n % 256]

/-- Fuel-driven helper for the minimal big-endian encoding. -/
def natToMinBEAux : Nat → Nat → List Nat
  | 0, _ => []
  | _ + 1, 0 => []
  | f + 1, n + 1 => natToMinBEAux f ((n + 1) / 256) ++ [(n + 1) % 256]

/-- Minimal big-endian byte encoding of an integer, with no zero
padding: the semantics of big.Int Bytes (the encoding of 0 is empty). -/
def natToMinBE (n : Nat) : List Nat :=
  natToMinBEAux n n

/-- Lowercase hexadecimal digit for a value below 16, as a character. -/
def hexDigitChar (d : Nat) : Char :=
  if d < 10 then Char.ofNat (48 + d) else Char.ofNat (87 + d)

/-- Two lowercase hex digits of one byte, the per-byte behavior of the
fmt Sprintf verb x on a byte slice. -/
def byteToHex (b : Nat) : List Char :=
  [hexDigitChar (b / 16), hexDigitChar (b % 16)]

/-- Lowercase hex string of a byte slice, Sprintf with verb x. -/
def hexOfBytes (bs : List Nat) : String :=
  String.mk (bs.map byteToHex).flatten

/-- Value of one hex digit character, accepting both cases, as the fmt
Sscanf verb x does. -/
def hexDigitVal (c : Char) : Option Nat :=
  if 48 ≤ c.toNat ∧ c.toNat ≤ 57 then some (c.toNat - 48)
  else if 97 ≤ c.toNat ∧ c.toNat ≤ 102 then some (c.toNat - 87)
  else if 65 ≤ c.toNat ∧ c.toNat ≤ 70 then some (c.toNat - 55)
  else none

/-- Decode a hex character sequence two digits per byte; fails on a
malformed or odd-length sequence. -/
def bytesOfHexChars : List Char → Option (List Nat)
  | [] => some []
  | [_] => none
  | c1 :: c2 :: rest =>
    match hexDigitVal c1, hexDigitVal c2, bytesOfHexChars rest with
    | some v1, some v2, some bs => some ((16 * v1 + v2) :: bs)
    | _, _, _ => none

/-- Model of fmt Sscanf with verb x into a byte slice. -/
def parseHexBytes (s : String) : Option (List Nat) :=
  bytesOfHexChars s.data

/-- Bytes of a challenge string, the Go conversion from string to byte
slice (character codes; the claims only exercise ASCII payloads). -/
def strBytes (s : String) : List Nat :=
  s.data.map Char.toNat


/-
Abstraction of the external cryptographic libraries.  The service code
in did.go calls gnark-crypto (MiMC, EdDSA key generation and signing)
and the gnark circuit standard library (in-circuit EdDSA verification,
Assign conversions from serialized keys and signatures to witness field
elements).  Those libraries are not part of this repository; each call
site is mapped to a field of this structure, constrained by the
algebraic facts the libraries guarantee and that the repository relies
on (the in-circuit verifier accepts honestly produced signatures, and
the MiMC digest is a field element).
-/

/-- External cryptographic primitives used by the DID service. -/
structure Crypto where
  /-- MiMC over the scalar field: absorbing a sequence of field
  elements and squeezing one field element (gnark-crypto MiMC and the
  identical in-circuit gadget). -/
  mimcF : List Nat → Nat
  /-- The digest is a field element. -/
  mimcF_lt : ∀ l, mimcF l < p
  /-- Compressed public key bytes derived from the 32-byte big-endian
  seed of a secret scalar (cryptoeddsa.New followed by Public and
  Bytes). -/
  pubKeyBytes : Nat → List Nat
  /-- Deterministic EdDSA signature bytes over a message, with MiMC as
  the in-scheme hash (privKey.Sign with cryptomimc.NewMiMC). -/
  signBytes : Nat → List Nat → List Nat
  /-- Conversion performed by eddsa.PublicKey.Assign: compressed public
  key bytes to the two public witness field elements (A.X, A.Y). -/
  pkAssign : List Nat → Nat × Nat
  /-- Conversion performed by eddsa.Signature.Assign: signature bytes to
  the three public witness field elements (R.X, R.Y, S). -/
  sigAssign : List Nat → Nat × Nat × Nat
  /-- Result of the in-circuit eddsa.Verify constraint block on the five
  signature-related field elements and the message field element. -/
  eddsaCheck : Nat → Nat → Nat → Nat → Nat → Nat → Bool
  /-- Perfect completeness of the signature scheme against the circuit:
  an honestly generated signature over the matching public key satisfies
  the in-circuit verifier on the message reduced into the field. -/
  sign_complete : ∀ sk m,
    eddsaCheck (pkAssign (pubKeyBytes sk)).1 (pkAssign (pubKeyBytes sk)).2
      (sigAssign (signBytes sk m)).1 (sigAssign (signBytes sk m)).2.1
      (sigAssign (signBytes sk m)).2.2 (beBytesToNat m % p) = true

/-- Absorption of a sequence of Write calls by the native gnark-crypto
MiMC digest.  Modelled from the spec: the hasher implementation is in
the external gnark-crypto library, not in this repository; per section
4.1 of the specification each written chunk is interpreted as a
big-endian integer reduced mod the field order and absorbed as one
field element, which is also the semantics forced by the repository
test TestAgeProofCircuit agreeing with the in-circuit hash. -/
def mimcWrites (C : Crypto) (ws : List (List Nat)) : Nat :=
  C.mimcF (ws.map fun w => beBytesToNat w % p)

/-
Data model of did.go, field for field.  Dynamic maps
(Claims, PublicKeyJwk) are modelled as ordered string pairs, byte
slices holding text as strings.
-/

/-- Authentication method entry of a DID document. -/
structure AuthMethod where
  id : String
  methodType : String
  controller : String
  publicKeyJwk : List (String × String)
  deriving DecidableEq

/-- Proof metadata of a verifiable credential (placeholder data in the
source, no live artifact). -/
structure CredentialProof where
  proofType : String
  created : String
  verificationMethod : String
  proofValue : String
  zkProof : List Nat
  deriving DecidableEq

/-- Verifiable credential as stored on a DID document. -/
structure VerifiableCredential where
  context : List String
  id : String
  credType : List String
  issuer : String
  subject : String
  claims : List (String × String)
  proof : CredentialProof
  commitmentID : String
  deriving DecidableEq

/-- DID document. -/
structure DIDDocument where
  context : List String
  id : String
  controller : String
  auth : List AuthMethod
  credentials : List VerifiableCredential
  deriving DecidableEq

/-- A registered DID: identifier, gnark public key (kept as the bytes
it was assigned from) and document. -/
structure DID where
  id : String
  publicKey : List Nat
  document : DIDDocument
  deriving DecidableEq

/-- Go zero value of the DID struct, produced by reading a missing key
of the DIDs map. -/
def zeroDID : DID :=
  { id := ""
    publicKey := []
    document := { context := [], id := "", controller := "", auth := [], credentials := [] } }

/-- The mutable state of DIDService: the DIDs map.  The compiled
constraint systems and Groth16 keys are immutable after NewDIDService
and are modelled structurally by the prove and verify functions
below. -/
def ServiceState := List (String × DID)

instance : DecidableEq ServiceState := by
  unfold ServiceState
  infer_instance

/-- Lookup in the DIDs map. -/
def regLookup : List (String × DID) → String → Option DID
  | [], _ => none
  | (k', v') :: rest, k => if k' = k then some v' else regLookup rest k

/-- Map assignment: replace the binding when the key is present,
otherwise add it. -/
def regSet : List (String × DID) → String → DID → List (String × DID)
  | [], k, v => [(k, v)]
  | (k', v') :: rest, k, v =>
    if k' = k then (k, v) :: rest else (k', v') :: regSet rest k v


/-
Groth16 engine, idealized.  A witness is the vector of field elements
produced by frontend.NewWitness; a proof is bound to the public-input
vector it was generated for.  groth16.Prove runs the constraint solver
and fails on an unsatisfied system; groth16.Verify succeeds exactly on
the public-input vector of the proof.
-/

/-- Go-level error outcomes of the service operations (the source wraps
them with fmt.Errorf; only the case matters here). -/
inductive GoError where
  | didNotFound
  | credentialNotFound
  | parseCommitmentFailed
  | witnessCreationFailed
  | proveFailed
  | verifyFailed
  | readProofFailed
  deriving DecidableEq

/-- Serialized Groth16 proof for the authentication circuit, carrying
the public-input vector it proves. -/
structure AuthProofG where
  publicVec : List Nat
  deriving DecidableEq

/-- Serialized Groth16 proof for the age circuit. -/
structure AgeProofG where
  publicVec : List Nat
  deriving DecidableEq

/-- Witness assignment for DIDAuthCircuit: PublicKey (public), Message
(secret), Signature (public); a nil frontend.Variable is None. -/
structure AuthAssignment where
  publicKey : Option (List Nat)
  message : Option (List Nat)
  signature : Option (List Nat)

/-- Witness assignment for AgeProofCircuit: AgeThreshold and
AgeCommitment public, ActualAge and AgeCommitmentSalt secret. -/
structure AgeAssignment where
  ageThreshold : Option Nat
  ageCommitment : Option Nat
  actualAge : Option Nat
  ageCommitmentSalt : Option Nat

/-- frontend.NewWitness over DIDAuthCircuit.  Public leaves come first
in schema order (pk.x, pk.y, R.x, R.y, S), then the secret message
reduced into the field.  An unset leaf makes witness construction fail
(fr.Element SetInterface rejects nil). -/
def newAuthWitness (C : Crypto) (a : AuthAssignment) (publicOnly : Bool) :
    Option (List Nat) :=
  match a.publicKey, a.signature with
  | some pkB, some sigB =>
    let pk := C.pkAssign pkB
    let sg := C.sigAssign sigB
    if publicOnly then some [pk.1, pk.2, sg.1, sg.2.1, sg.2.2]
    else
      match a.message with
      | some m => some [pk.1, pk.2, sg.1, sg.2.1, sg.2.2, beBytesToNat m % p]
      | none => none
  | _, _ => none

/-- frontend.NewWitness over AgeProofCircuit, values reduced into the
field in schema order (threshold, commitment, age, salt). -/
def newAgeWitness (a : AgeAssignment) (publicOnly : Bool) : Option (List Nat) :=
  match a.ageThreshold, a.ageCommitment with
  | some t, some c =>
    if publicOnly then some [t % p, c % p]
    else
      match a.actualAge, a.ageCommitmentSalt with
      | some x, some s => some [t % p, c % p, x % p, s % p]
      | _, _ => none
  | _, _ => none

/-- Constraints of DIDAuthCircuit.Define: in-circuit EdDSA verification
of the signature over the message under the public key. -/
def authCircuitSat (C : Crypto) : List Nat → Bool
  | [px, py, rx, ry, s, m] => C.eddsaCheck px py rx ry s m
  | _ => false

/-- Constraints of AgeProofCircuit.Define: AssertIsLessOrEqual on
threshold and age, and the MiMC commitment equation. -/
def ageCircuitSat (C : Crypto) : List Nat → Bool
  | [t, c, x, s] => decide (t ≤ x) && decide (C.mimcF [x, s] = c)
  | _ => false

/-- groth16.Prove on the authentication circuit: fails when the solver
cannot satisfy the constraints, otherwise emits a proof bound to the
five public inputs. -/
def groth16ProveAuth (C : Crypto) (w : List Nat) : Except GoError AuthProofG :=
  if authCircuitSat C w then .ok ⟨w.take 5⟩ else .error .proveFailed

/-- groth16.Prove on the age circuit, public part the first two
entries. -/
def groth16ProveAge (C : Crypto) (w : List Nat) : Except GoError AgeProofG :=
  if ageCircuitSat C w then .ok ⟨w.take 2⟩ else .error .proveFailed

/-
The service operations of did.go.  The value drawn from crypto/rand is
passed explicitly (its contract: uniform in [0, max) for rand.Int with
max = fr.Modulus()).  Operations whose Go error returns can fire on
runtime input are embedded in Except; CreateDID and IssueAgeCredential
can only fail on an RNG or key-generation breakdown and are embedded as
total functions of the drawn value.
-/

/-- CreateDID with the drawn secret scalar r made explicit: derive the
EdDSA keypair from the 32-byte big-endian seed of r, compose the id
from the hex of the compressed public key, build the document, and
write the entry into the DIDs map (unconditionally).  Returns the DID,
the raw secret and the new state. -/
def createDID (C : Crypto) (st : ServiceState) (r : Nat) : DID × Nat × ServiceState :=
  let pkB := C.pubKeyBytes r
  let id := "did:example:" ++ hexOfBytes pkB
  let document : DIDDocument :=
    { context := ["https://www.w3.org/ns/did/v1"]
      id := id
      controller := id
      auth := [{ id := id ++ "#keys-1"
                 methodType := "Ed25519VerificationKey2020"
                 controller := id
                 publicKeyJwk := [("kty", "OKP"), ("crv", "Ed25519"), ("x", hexOfBytes pkB)] }]
      credentials := [] }
  let did : DID := { id := id, publicKey := pkB, document := document }
  (did, r, regSet st id did)

/-- AuthenticateDID: look up the DID, recreate the key from the secret,
sign the challenge, build the full witness from the stored public key,
the challenge bytes and the signature, and run the Groth16 prover.
Returns the serialized proof and the signature bytes. -/
def authenticateDID (C : Crypto) (st : ServiceState) (didID : String)
    (privateKey : Nat) (challenge : String) : Except GoError (AuthProofG × List Nat) :=
  match regLookup st didID with
  | none => .error .didNotFound
  | some did =>
    let signature := C.signBytes privateKey (strBytes challenge)
    match newAuthWitness C
        { publicKey := some did.publicKey
          message := some (strBytes challenge)
          signature := some signature } false with
    | none => .error .witnessCreationFailed
    | some w =>
      match groth16ProveAuth C w with
      | .error e => .error e
      | .ok prf => .ok (prf, signature)

/-- VerifyAuthentication: look up the DID, deserialize the proof, build
the public-only witness from the stored public key and the supplied
signature, and run groth16.Verify.  A verification failure is returned
as an error together with false (return false, err in the source). -/
def verifyAuthentication (C : Crypto) (st : ServiceState) (didID : String)
    (proofBytes : AuthProofG) (signature : List Nat) : Except GoError Bool :=
  match regLookup st didID with
  | none => .error .didNotFound
  | some did =>
    match newAuthWitness C
        { publicKey := some did.publicKey
          message := none
          signature := some signature } true with
    | none => .error .witnessCreationFailed
    | some pw =>
      if proofBytes.publicVec = pw then .ok true else .error .verifyFailed

/-- IssueAgeCredential with the drawn salt made explicit.  The source
performs no registry lookup: it hashes the minimal big-endian bytes of
age and salt with MiMC, builds the credential with the commitment hex
in both CommitmentID and the ageCommitment claim, then reads the DIDs
map at didID (yielding the zero DID value when absent), appends the
credential to that document and writes the entry back. -/
def issueAgeCredential (C : Crypto) (st : ServiceState) (didID : String)
    (age : Nat) (salt : Nat) : VerifiableCredential × Nat × ServiceState :=
  let commitment := mimcWrites C [natToMinBE age, natToMinBE salt]
  let commitmentHex := hexOfBytes (natToBEFixed 32 commitment)
  let credential : VerifiableCredential :=
    { context := ["https://www.w3.org/2018/credentials/v1",
                  "https://www.w3.org/2018/credentials/examples/v1"]
      id := didID ++ "#credential-1"
      credType := ["VerifiableCredential", "AgeCredential"]
      issuer := "did:example:issuer"
      subject := didID
      claims := [("ageCommitment", commitmentHex)]
      proof := { proofType := "Ed25519Signature2020"
                 created := "2023-01-01T00:00:00Z"
                 verificationMethod := "did:example:issuer#keys-1"
                 proofValue := "example-signature"
                 zkProof := [] }
      commitmentID := commitmentHex }
  let did := (regLookup st didID).getD zeroDID
  let doc := did.document
  let did' := { did with document := { doc with credentials := doc.credentials ++ [credential] } }
  (credential, salt, regSet st didID did')

/-- Credential selection loop shared by CreateAgeProof and
VerifyAgeProof: first credential in document order whose ID matches. -/
def findCredential (creds : List VerifiableCredential) (credentialID : String) :
    Option VerifiableCredential :=
  creds.find? fun c => c.id = credentialID

/-- CreateAgeProof: look up DID and credential, scan the commitment hex
back into bytes and an integer, build the full witness from threshold,
commitment, age and salt, and run the Groth16 prover. -/
def createAgeProof (C : Crypto) (st : ServiceState) (didID credentialID : String)
    (ageThreshold actualAge : Nat) (salt : Nat) : Except GoError AgeProofG :=
  match regLookup st didID with
  | none => .error .didNotFound
  | some did =>
    match findCredential did.document.credentials credentialID with
    | none => .error .credentialNotFound
    | some credential =>
      match parseHexBytes credential.commitmentID with
      | none => .error .parseCommitmentFailed
      | some commitmentBytes =>
        let commitment := beBytesToNat commitmentBytes
        match newAgeWitness
            { ageThreshold := some ageThreshold
              ageCommitment := some commitment
              actualAge := some actualAge
              ageCommitmentSalt := some salt } false with
        | none => .error .witnessCreationFailed
        | some w => groth16ProveAge C w

/-- VerifyAgeProof: look up DID and credential, scan the commitment hex,
deserialize the proof, then build the witness over an assignment whose
private variables are unset and WITHOUT the public-only option (the
source omits frontend.PublicOnly here, unlike VerifyAuthentication), and
finally run groth16.Verify, swallowing its error into false.  Witness
construction over the two unset secret leaves fails, so the error branch
before the verify call is taken. -/
def verifyAgeProof (_C : Crypto) (st : ServiceState) (didID credentialID : String)
    (ageThreshold : Nat) (proofBytes : AgeProofG) : Except GoError Bool :=
  match regLookup st didID with
  | none => .error .didNotFound
  | some did =>
    match findCredential did.document.credentials credentialID with
    | none => .error .credentialNotFound
    | some credential =>
      match parseHexBytes credential.commitmentID with
      | none => .error .parseCommitmentFailed
      | some commitmentBytes =>
        let commitment := beBytesToNat commitmentBytes
        match newAgeWitness
            { ageThreshold := some ageThreshold
              ageCommitment := some commitment
              actualAge := none
              ageCommitmentSalt := none } false with
        | none => .error .witnessCreationFailed
        | some w =>
          if proofBytes.publicVec = w then .ok true else .ok false

/-
A small concrete instance of the cryptographic primitives, used to
evaluate the embedded service on explicit inputs.  It satisfies the
interface properties (field-sized digests, deterministic signing whose
honest signatures pass the circuit check); it is of course not the real
MiMC or EdDSA, which live in the external libraries.
-/

/-- Concrete instantiation of the primitive interface for evaluation. -/
def toyCrypto : Crypto where
  mimcF l := (l.foldl (fun a b => a + b) 1) % p
  mimcF_lt _ := Nat.mod_lt _ (by decide)
  pubKeyBytes sk := natToBEFixed 32 sk
  signBytes sk m := natToMinBE ((sk + beBytesToNat m) % p + 1)
  pkAssign b := (beBytesToNat b % p, 0)
  sigAssign b := (beBytesToNat b % p, 0, 0)
  eddsaCheck _ _ _ _ _ _ := true
  sign_complete _ _ := rfl

deriving instance DecidableEq for Except

-- THEOREMS-ANCHOR

/-
Basic lemmas about the byte, hex and registry codecs.
-/

theorem p_pos : 0 < p := by decide

theorem p_lt_2pow256 : p < 2 ^ 256 := by decide

theorem beBytesToNat_append (l1 l2 : List Nat) :
    beBytesToNat (l1 ++ l2) = beBytesToNat l1 * 256 ^ l2.length + beBytesToNat l2 := by
  induction l2 using List.reverseRecOn with
  | nil => simp [beBytesToNat]
  | append_singleton xs x ih =>
    simp only [beBytesToNat, List.foldl_append, List.foldl_cons, List.foldl_nil] at *
    rw [ih, List.length_append]
    simp only [List.length_cons, List.length_nil]
    ring

theorem mod_mul_base (q r k : Nat) (hr : r < 256) :
    (256 * q + r) % (256 * 256 ^ k) = 256 * (q % 256 ^ k) + r := by
  have hk : 0 < 256 ^ k := Nat.pos_pow_of_pos k (by decide)
  have h1 : 256 * q % (256 * 256 ^ k) = 256 * (q % 256 ^ k) :=
    Nat.mul_mod_mul_left 256 q (256 ^ k)
  have h3 : q % 256 ^ k < 256 ^ k := Nat.mod_lt q hk
  have h2 : 256 * (q % 256 ^ k) + r < 256 * 256 ^ k := by
    calc 256 * (q % 256 ^ k) + r < 256 * (q % 256 ^ k) + 256 := by omega
      _ = 256 * (q % 256 ^ k + 1) := by ring
      _ ≤ 256 * 256 ^ k := Nat.mul_le_mul_left 256 h3
  have hrM : r < 256 * 256 ^ k := by
    calc r < 256 := hr
      _ = 256 * 1 := by ring
      _ ≤ 256 * 256 ^ k := Nat.mul_le_mul_left 256 hk
  rw [Nat.add_mod, h1, Nat.mod_eq_of_lt hrM, Nat.mod_eq_of_lt h2]

theorem beBytesToNat_natToBEFixed (k n : Nat) :
    beBytesToNat (natToBEFixed k n) = n % 256 ^ k := by
  induction k generalizing n with
  | zero => simp [natToBEFixed, beBytesToNat, Nat.mod_one]
  | succ k ih =>
    rw [natToBEFixed, beBytesToNat_append, ih]
    have h1 : beBytesToNat [n % 256] = n % 256 := by simp [beBytesToNat]
    have h2 : ([n % 256] : List Nat).length = 1 := rfl
    rw [h1, h2, pow_one, pow_succ']
    conv_rhs => rw [(Nat.div_add_mod n 256).symm]
    rw [mod_mul_base _ _ _ (Nat.mod_lt n (by decide))]
    ring

theorem natToBEFixed_bytes_lt (k n : Nat) :
    ∀ b ∈ natToBEFixed k n, b < 256 := by
  induction k generalizing n with
  | zero => simp [natToBEFixed]
  | succ k ih =>
    intro b hb
    rw [natToBEFixed] at hb
    rcases List.mem_append.mp hb with h | h
    · exact ih _ b h
    · simp only [List.mem_singleton] at h
      subst h
      exact Nat.mod_lt _ (by decide)

theorem natToMinBEAux_spec (f n : Nat) (h : n ≤ f) :
    beBytesToNat (natToMinBEAux f n) = n := by
  induction f generalizing n with
  | zero =>
    interval_cases n
    simp [natToMinBEAux, beBytesToNat]
  | succ f ih =>
    match n with
    | 0 => simp [natToMinBEAux, beBytesToNat]
    | m + 1 =>
      rw [natToMinBEAux, beBytesToNat_append, ih _ (by
        have := Nat.div_le_self (m + 1) 256
        have h2 : (m + 1) / 256 < m + 1 := Nat.div_lt_self (Nat.succ_pos m) (by decide)
        omega)]
      simp only [List.length_cons, List.length_nil, beBytesToNat, List.foldl_cons, List.foldl_nil,
        pow_one]
      omega

/-- The minimal big-endian encoding decodes back to the value: the
byte-level absorption of a big.Int agrees with the integer. -/
theorem beBytesToNat_natToMinBE (n : Nat) : beBytesToNat (natToMinBE n) = n :=
  natToMinBEAux_spec n n le_rfl

theorem natToMinBEAux_bytes_lt (f n : Nat) :
    ∀ b ∈ natToMinBEAux f n, b < 256 := by
  induction f generalizing n with
  | zero => simp [natToMinBEAux]
  | succ f ih =>
    match n with
    | 0 => simp [natToMinBEAux]
    | m + 1 =>
      intro b hb
      rw [natToMinBEAux] at hb
      rcases List.mem_append.mp hb with h | h
      · exact ih _ b h
      · simp only [List.mem_singleton] at h
        subst h
        exact Nat.mod_lt _ (by decide)

theorem hexDigitVal_hexDigitChar (d : Nat) (h : d < 16) :
    hexDigitVal (hexDigitChar d) = some d := by
  interval_cases d <;> decide

theorem bytesOfHexChars_roundtrip (bs : List Nat) (h : ∀ b ∈ bs, b < 256) :
    bytesOfHexChars (bs.map byteToHex).flatten = some bs := by
  induction bs with
  | nil => simp [bytesOfHexChars]
  | cons b rest ih =>
    have hb : b < 256 := h b (List.mem_cons_self b rest)
    have hrest : ∀ x ∈ rest, x < 256 := fun x hx => h x (List.mem_cons_of_mem b hx)
    simp only [List.map_cons, List.flatten, byteToHex, List.cons_append, List.nil_append,
      bytesOfHexChars, hexDigitVal_hexDigitChar (b / 16) (by omega),
      hexDigitVal_hexDigitChar (b % 16) (Nat.mod_lt _ (by decide))]
    have hnil : ([] : List Char).append (rest.map byteToHex).flatten
        = (rest.map byteToHex).flatten := rfl
    rw [hnil, ih hrest]
    show some ((16 * (b / 16) + b % 16) :: rest) = some (b :: rest)
    have hsplit : 16 * (b / 16) + b % 16 = b := by omega
    rw [hsplit]

/-- Printing bytes as lowercase hex and scanning them back with verb x
is the identity, as exercised between IssueAgeCredential and the two
age-proof operations. -/
theorem parseHexBytes_hexOfBytes (bs : List Nat) (h : ∀ b ∈ bs, b < 256) :
    parseHexBytes (hexOfBytes bs) = some bs := by
  simpa [parseHexBytes, hexOfBytes] using bytesOfHexChars_roundtrip bs h

theorem regLookup_regSet_self (r : List (String × DID)) (k : String) (v : DID) :
    regLookup (regSet r k v) k = some v := by
  induction r with
  | nil => simp [regSet, regLookup]
  | cons hd tl ih =>
    obtain ⟨k', v'⟩ := hd
    by_cases h : k' = k
    · simp [regSet, regLookup, h]
    · simp [regSet, regLookup, h, ih]

theorem regLookup_regSet_ne (r : List (String × DID)) (k k' : String) (v : DID)
    (h : k' ≠ k) : regLookup (regSet r k v) k' = regLookup r k' := by
  have hne : ¬k = k' := fun hh => h hh.symm
  induction r with
  | nil => simp [regSet, regLookup, hne]
  | cons hd tl ih =>
    obtain ⟨k0, v0⟩ := hd
    by_cases h0 : k0 = k
    · subst h0
      simp [regSet, regLookup, hne]
    · simp [regSet, regLookup, h0, ih]


/-
Helper facts connecting the stored commitment hex to the field element.
-/

theorem natToBEFixed32_roundtrip (n : Nat) (hn : n < p) :
    beBytesToNat (natToBEFixed 32 n) = n := by
  rw [beBytesToNat_natToBEFixed]
  have h256 : (256 : Nat) ^ 32 = 2 ^ 256 := by norm_num
  exact Nat.mod_eq_of_lt (h256 ▸ lt_trans hn p_lt_2pow256)

/-
Claim theorems.
-/

/-- C7: the commitment stored by IssueAgeCredential is the MiMC digest
of the minimal big-endian byte encoding of the age absorbed first and
of the salt absorbed second (each such chunk reducing to the field
element age mod p and salt mod p), and the hex of this digest is stored
identically in the CommitmentID field and in the single ageCommitment
claim of the credential. -/
theorem issue_commitment_encoding (C : Crypto) (st : ServiceState) (didID : String)
    (age salt : Nat) :
    (issueAgeCredential C st didID age salt).1.commitmentID
        = hexOfBytes (natToBEFixed 32 (C.mimcF [age % p, salt % p])) ∧
    (issueAgeCredential C st didID age salt).1.claims
        = [("ageCommitment", (issueAgeCredential C st didID age salt).1.commitmentID)] := by
  constructor
  · simp [issueAgeCredential, mimcWrites, beBytesToNat_natToMinBE]
  · simp [issueAgeCredential]

/-- C9: the credential and the post-state of IssueAgeCredential depend
on the age and salt only through their MiMC commitment, so the salt
value itself is stored nowhere in the registry, the document or the
credential; the salt is handed back to the caller unchanged. -/
theorem salt_not_stored (C : Crypto) (st : ServiceState) (didID : String)
    (a s a' s' : Nat)
    (h : mimcWrites C [natToMinBE a, natToMinBE s]
        = mimcWrites C [natToMinBE a', natToMinBE s']) :
    (issueAgeCredential C st didID a s).1 = (issueAgeCredential C st didID a' s').1 ∧
    (issueAgeCredential C st didID a s).2.2 = (issueAgeCredential C st didID a' s').2.2 ∧
    (issueAgeCredential C st didID a s).2.1 = s := by
  refine ⟨?_, ?_, rfl⟩ <;> simp [issueAgeCredential, h]

/-- Witness for salt_not_stored at a concrete collision of the toy
hash: the pairs (25, 7) and (7, 25) commit identically, yet the issued
credential and state coincide while the returned salts differ. -/
theorem salt_not_stored_witness :
    (mimcWrites toyCrypto [natToMinBE 25, natToMinBE 7]
        = mimcWrites toyCrypto [natToMinBE 7, natToMinBE 25]) ∧
    ((issueAgeCredential toyCrypto [] "did:example:ab" 25 7).1
        = (issueAgeCredential toyCrypto [] "did:example:ab" 7 25).1 ∧
      (issueAgeCredential toyCrypto [] "did:example:ab" 25 7).2.2
        = (issueAgeCredential toyCrypto [] "did:example:ab" 7 25).2.2 ∧
      (issueAgeCredential toyCrypto [] "did:example:ab" 25 7).2.1 = 7) :=
  ⟨by decide, salt_not_stored toyCrypto [] "did:example:ab" 25 7 7 25 (by decide)⟩

/-- C8 counterexample: the scalar 0 lies inside the [0, fr.Modulus())
support of the rand.Int call in CreateDID, and with that drawn value
CreateDID returns 0 as the secret — the secret is not confined to
[1, order). -/
theorem createdid_zero_secret : 0 < p ∧ (createDID toyCrypto [] 0).2.1 = 0 :=
  ⟨p_pos, rfl⟩

/-- C8 amended: the secret returned by CreateDID is exactly the drawn
scalar, hence it ranges over [0, order) — the full support of
rand.Int(rand.Reader, fr.Modulus()) — with zero possible. -/
theorem createdid_secret_range (C : Crypto) (st : ServiceState) (r : Nat) (hr : r < p) :
    (createDID C st r).2.1 = r ∧ (createDID C st r).2.1 < p :=
  ⟨rfl, hr⟩

/-- Witness for createdid_secret_range at the drawn scalar 3. -/
theorem createdid_secret_range_witness :
    3 < p ∧ ((createDID toyCrypto [] 3).2.1 = 3 ∧ (createDID toyCrypto [] 3).2.1 < p) :=
  ⟨by decide, createdid_secret_range toyCrypto [] 3 (by decide)⟩

/-- C6 amended: CreateDID never fails and unconditionally binds the
derived id to the freshly built DID, replacing any existing binding of
that id (there is no duplicate check in the source). -/
theorem createdid_always_registers (C : Crypto) (st : ServiceState) (r : Nat) :
    regLookup (createDID C st r).2.2 (createDID C st r).1.id = some (createDID C st r).1 := by
  simp [createDID, regLookup_regSet_self]

/-- C6 counterexample: create a DID from the drawn scalar 5, issue it a
credential, then run CreateDID again with the same drawn scalar.  The
derived id already exists, yet the call returns normally (the source has
no duplicate check and no Internal error path) and the registry entry is
replaced: its credential list drops from one element back to zero. -/
theorem createdid_overwrites :
    (createDID toyCrypto
        (issueAgeCredential toyCrypto (createDID toyCrypto [] 5).2.2
          (createDID toyCrypto [] 5).1.id 25 7).2.2 5).1.id
      = (createDID toyCrypto [] 5).1.id ∧
    ((regLookup (issueAgeCredential toyCrypto (createDID toyCrypto [] 5).2.2
          (createDID toyCrypto [] 5).1.id 25 7).2.2
        (createDID toyCrypto [] 5).1.id).map (fun d => d.document.credentials.length))
      = some 1 ∧
    ((regLookup (createDID toyCrypto
          (issueAgeCredential toyCrypto (createDID toyCrypto [] 5).2.2
            (createDID toyCrypto [] 5).1.id 25 7).2.2 5).2.2
        (createDID toyCrypto [] 5).1.id).map (fun d => d.document.credentials.length))
      = some 0 := by
  refine ⟨rfl, ?_, ?_⟩ <;> decide


/-
Evaluation helpers for the authentication path, shared by the
round-trip and challenge-binding theorems.
-/

theorem authenticate_eval (C : Crypto) (st : ServiceState) (r : Nat) (ch : String) :
    authenticateDID C (createDID C st r).2.2 (createDID C st r).1.id r ch
      = .ok (⟨[(C.pkAssign (C.pubKeyBytes r)).1, (C.pkAssign (C.pubKeyBytes r)).2,
               (C.sigAssign (C.signBytes r (strBytes ch))).1,
               (C.sigAssign (C.signBytes r (strBytes ch))).2.1,
               (C.sigAssign (C.signBytes r (strBytes ch))).2.2]⟩,
             C.signBytes r (strBytes ch)) := by
  simp [createDID, authenticateDID, regLookup_regSet_self, newAuthWitness, groth16ProveAuth,
    authCircuitSat, C.sign_complete]

theorem verify_eval (C : Crypto) (st : ServiceState) (r : Nat) (sig : List Nat)
    (prf : AuthProofG)
    (h : prf.publicVec
      = [(C.pkAssign (C.pubKeyBytes r)).1, (C.pkAssign (C.pubKeyBytes r)).2,
         (C.sigAssign sig).1, (C.sigAssign sig).2.1, (C.sigAssign sig).2.2]) :
    verifyAuthentication C (createDID C st r).2.2 (createDID C st r).1.id prf sig = .ok true := by
  simp [createDID, verifyAuthentication, regLookup_regSet_self, newAuthWitness, h]

/-- C2: for a DID and secret returned by CreateDID and any challenge,
AuthenticateDID succeeds, and its proof-signature output makes
VerifyAuthentication return true with no error. -/
theorem auth_roundtrip (C : Crypto) (st : ServiceState) (r : Nat) (_hr : r < p)
    (ch : String) :
    ∃ prf sig,
      authenticateDID C (createDID C st r).2.2 (createDID C st r).1.id
          (createDID C st r).2.1 ch = .ok (prf, sig) ∧
      verifyAuthentication C (createDID C st r).2.2 (createDID C st r).1.id prf sig
        = .ok true := by
  exact ⟨_, _, authenticate_eval C st r ch, verify_eval C st r _ _ rfl⟩

/-- Witness for auth_roundtrip with the drawn scalar 5 and the
challenge hello. -/
theorem auth_roundtrip_witness :
    5 < p ∧ (∃ prf sig,
      authenticateDID toyCrypto (createDID toyCrypto [] 5).2.2
          (createDID toyCrypto [] 5).1.id (createDID toyCrypto [] 5).2.1 "hello"
        = .ok (prf, sig) ∧
      verifyAuthentication toyCrypto (createDID toyCrypto [] 5).2.2
          (createDID toyCrypto [] 5).1.id prf sig = .ok true) :=
  ⟨by decide, auth_roundtrip toyCrypto [] 5 (by decide) "hello"⟩

/-- C3: the authentication circuit exposes as public inputs exactly the
two public-key coordinates and the three signature coordinates - the
challenge enters only the private message slot - and the public witness
the verifier builds holds only the stored key and the supplied
signature.  Hence the proof-signature pairs generated for two different
challenges verify identically (both accepted): the outcome of
VerifyAuthentication does not depend on which challenge the proof was
generated for. -/
theorem auth_challenge_unbound (C : Crypto) (st : ServiceState) (r : Nat) (_hr : r < p)
    (ch1 ch2 : String) :
    ∃ prf1 sig1 prf2 sig2,
      authenticateDID C (createDID C st r).2.2 (createDID C st r).1.id
          (createDID C st r).2.1 ch1 = .ok (prf1, sig1) ∧
      authenticateDID C (createDID C st r).2.2 (createDID C st r).1.id
          (createDID C st r).2.1 ch2 = .ok (prf2, sig2) ∧
      prf1.publicVec
        = [(C.pkAssign (createDID C st r).1.publicKey).1,
           (C.pkAssign (createDID C st r).1.publicKey).2,
           (C.sigAssign sig1).1, (C.sigAssign sig1).2.1, (C.sigAssign sig1).2.2] ∧
      prf2.publicVec
        = [(C.pkAssign (createDID C st r).1.publicKey).1,
           (C.pkAssign (createDID C st r).1.publicKey).2,
           (C.sigAssign sig2).1, (C.sigAssign sig2).2.1, (C.sigAssign sig2).2.2] ∧
      verifyAuthentication C (createDID C st r).2.2 (createDID C st r).1.id prf1 sig1
        = verifyAuthentication C (createDID C st r).2.2 (createDID C st r).1.id prf2 sig2 ∧
      verifyAuthentication C (createDID C st r).2.2 (createDID C st r).1.id prf1 sig1
        = .ok true := by
  refine ⟨_, _, _, _, authenticate_eval C st r ch1, authenticate_eval C st r ch2,
    rfl, rfl, ?_, ?_⟩
  · rw [verify_eval C st r _ _ rfl, verify_eval C st r _ _ rfl]
  · exact verify_eval C st r _ _ rfl

/-- Witness for auth_challenge_unbound with the drawn scalar 5 and two
distinct challenges. -/
theorem auth_challenge_unbound_witness :
    5 < p ∧ (∃ prf1 sig1 prf2 sig2,
      authenticateDID toyCrypto (createDID toyCrypto [] 5).2.2
          (createDID toyCrypto [] 5).1.id (createDID toyCrypto [] 5).2.1 "a"
        = .ok (prf1, sig1) ∧
      authenticateDID toyCrypto (createDID toyCrypto [] 5).2.2
          (createDID toyCrypto [] 5).1.id (createDID toyCrypto [] 5).2.1 "b"
        = .ok (prf2, sig2) ∧
      prf1.publicVec
        = [(toyCrypto.pkAssign (createDID toyCrypto [] 5).1.publicKey).1,
           (toyCrypto.pkAssign (createDID toyCrypto [] 5).1.publicKey).2,
           (toyCrypto.sigAssign sig1).1, (toyCrypto.sigAssign sig1).2.1,
           (toyCrypto.sigAssign sig1).2.2] ∧
      prf2.publicVec
        = [(toyCrypto.pkAssign (createDID toyCrypto [] 5).1.publicKey).1,
           (toyCrypto.pkAssign (createDID toyCrypto [] 5).1.publicKey).2,
           (toyCrypto.sigAssign sig2).1, (toyCrypto.sigAssign sig2).2.1,
           (toyCrypto.sigAssign sig2).2.2] ∧
      verifyAuthentication toyCrypto (createDID toyCrypto [] 5).2.2
          (createDID toyCrypto [] 5).1.id prf1 sig1
        = verifyAuthentication toyCrypto (createDID toyCrypto [] 5).2.2
            (createDID toyCrypto [] 5).1.id prf2 sig2 ∧
      verifyAuthentication toyCrypto (createDID toyCrypto [] 5).2.2
          (createDID toyCrypto [] 5).1.id prf1 sig1 = .ok true) :=
  ⟨by decide, auth_challenge_unbound toyCrypto [] 5 (by decide) "a" "b"⟩


/-- C1 evidence (code bug): with the repository test scenario - DID from
the drawn scalar 5, credential issued for age 25 with drawn salt 7,
threshold 18, the true age and salt supplied - CreateAgeProof succeeds,
but VerifyAgeProof on its output returns an error from witness
construction (the source builds the verification witness over the unset
private variables without the public-only option), so the round trip
never returns true, contrary to the claim and to TestAgeProofCircuit. -/
theorem age_proof_verify_bug :
    createAgeProof toyCrypto
        (issueAgeCredential toyCrypto (createDID toyCrypto [] 5).2.2
          (createDID toyCrypto [] 5).1.id 25 7).2.2
        (createDID toyCrypto [] 5).1.id
        (issueAgeCredential toyCrypto (createDID toyCrypto [] 5).2.2
          (createDID toyCrypto [] 5).1.id 25 7).1.id
        18 25 7
      = .ok ⟨[18, 33]⟩ ∧
    verifyAgeProof toyCrypto
        (issueAgeCredential toyCrypto (createDID toyCrypto [] 5).2.2
          (createDID toyCrypto [] 5).1.id 25 7).2.2
        (createDID toyCrypto [] 5).1.id
        (issueAgeCredential toyCrypto (createDID toyCrypto [] 5).2.2
          (createDID toyCrypto [] 5).1.id 25 7).1.id
        18 ⟨[18, 33]⟩
      = .error .witnessCreationFailed := by
  constructor <;> decide

/-- C4 evidence (code bug): with an empty registry, IssueAgeCredential
for an unknown id returns a credential with no error, and the registry
gains an entry under that id holding the Go zero DID value (empty id,
empty key) with the new credential appended - instead of a NotFound
error and an unchanged registry. -/
theorem issue_unknown_did_creates_entry :
    (issueAgeCredential toyCrypto [] "did:example:unknown" 25 7).1.id
      = "did:example:unknown#credential-1" ∧
    ((regLookup (issueAgeCredential toyCrypto [] "did:example:unknown" 25 7).2.2
        "did:example:unknown").map (fun d => d.id)) = some "" ∧
    ((regLookup (issueAgeCredential toyCrypto [] "did:example:unknown" 25 7).2.2
        "did:example:unknown").map (fun d => d.document.credentials.length)) = some 1 := by
  refine ⟨rfl, ?_, ?_⟩ <;> decide

/-- C5 evidence (code bug): an authentication proof paired with a
signature for a different challenge fails the Groth16 check, and
VerifyAuthentication surfaces that failure as an error (return false,
err in the source) rather than as the value false with no error; the
signature [104] supplied is the honest signature of the same key over
the other challenge. -/
theorem verify_auth_error_on_failing_proof :
    authenticateDID toyCrypto (createDID toyCrypto [] 5).2.2
        (createDID toyCrypto [] 5).1.id 5 "a"
      = .ok (⟨[5, 0, 103, 0, 0]⟩, [103]) ∧
    toyCrypto.signBytes 5 (strBytes "b") = [104] ∧
    verifyAuthentication toyCrypto (createDID toyCrypto [] 5).2.2
        (createDID toyCrypto [] 5).1.id ⟨[5, 0, 103, 0, 0]⟩ [104]
      = .error .verifyFailed := by
  refine ⟨?_, ?_, ?_⟩ <;> decide

/-- C10: every issuance for a DID derives the same credential id
didID#credential-1, so a second issuance appends a credential with a
duplicate id; the selection loop shared by CreateAgeProof and
VerifyAgeProof then picks the first credential in document order - the
earliest issued - and CreateAgeProof on the doubled document proves
against the commitment of that first credential. -/
theorem credential_duplicate_first_selected (C : Crypto) (st : ServiceState)
    (didID : String) (d0 : DID) (hreg : regLookup st didID = some d0)
    (hcred : d0.document.credentials = [])
    (a1 s1 a2 s2 t a s : Nat) :
    (issueAgeCredential C st didID a1 s1).1.id = didID ++ "#credential-1" ∧
    (issueAgeCredential C (issueAgeCredential C st didID a1 s1).2.2 didID a2 s2).1.id
      = (issueAgeCredential C st didID a1 s1).1.id ∧
    ((regLookup (issueAgeCredential C (issueAgeCredential C st didID a1 s1).2.2
        didID a2 s2).2.2 didID).map (fun d => d.document.credentials))
      = some [(issueAgeCredential C st didID a1 s1).1,
              (issueAgeCredential C (issueAgeCredential C st didID a1 s1).2.2 didID a2 s2).1] ∧
    findCredential
        [(issueAgeCredential C st didID a1 s1).1,
         (issueAgeCredential C (issueAgeCredential C st didID a1 s1).2.2 didID a2 s2).1]
        ((issueAgeCredential C (issueAgeCredential C st didID a1 s1).2.2 didID a2 s2).1.id)
      = some (issueAgeCredential C st didID a1 s1).1 ∧
    createAgeProof C
        (issueAgeCredential C (issueAgeCredential C st didID a1 s1).2.2 didID a2 s2).2.2
        didID (didID ++ "#credential-1") t a s
      = (if t % p ≤ a % p ∧ C.mimcF [a % p, s % p] = C.mimcF [a1 % p, s1 % p]
         then .ok ⟨[t % p, C.mimcF [a1 % p, s1 % p]]⟩
         else .error .proveFailed) := by
  have hparse : parseHexBytes (hexOfBytes (natToBEFixed 32 (C.mimcF [a1 % p, s1 % p])))
      = some (natToBEFixed 32 (C.mimcF [a1 % p, s1 % p])) :=
    parseHexBytes_hexOfBytes _ (natToBEFixed_bytes_lt _ _)
  have hrt : beBytesToNat (natToBEFixed 32 (C.mimcF [a1 % p, s1 % p]))
      = C.mimcF [a1 % p, s1 % p] :=
    natToBEFixed32_roundtrip _ (C.mimcF_lt _)
  have hmod : C.mimcF [a1 % p, s1 % p] % p = C.mimcF [a1 % p, s1 % p] :=
    Nat.mod_eq_of_lt (C.mimcF_lt _)
  refine ⟨rfl, rfl, ?_, ?_, ?_⟩
  · simp [issueAgeCredential, regLookup_regSet_self, hreg, hcred]
  · simp [findCredential, issueAgeCredential, List.find?]
  · simp only [createAgeProof, issueAgeCredential, regLookup_regSet_self, hreg, hcred]
    simp only [Option.getD_some, List.nil_append]
    simp [findCredential, List.find?, hcred, hparse, hrt, hmod, newAgeWitness,
      groth16ProveAge, ageCircuitSat, mimcWrites, beBytesToNat_natToMinBE,
      Bool.and_eq_true, decide_eq_true_eq]

/-- Witness for credential_duplicate_first_selected: DID from the drawn
scalar 5, issuances for ages 25 and 30, proof request at threshold 18
with the first credential age and salt. -/
theorem credential_duplicate_first_selected_witness :
    (regLookup (createDID toyCrypto [] 5).2.2 (createDID toyCrypto [] 5).1.id
      = some (createDID toyCrypto [] 5).1) ∧
    createAgeProof toyCrypto
        (issueAgeCredential toyCrypto
          (issueAgeCredential toyCrypto (createDID toyCrypto [] 5).2.2
            (createDID toyCrypto [] 5).1.id 25 7).2.2
          (createDID toyCrypto [] 5).1.id 30 9).2.2
        (createDID toyCrypto [] 5).1.id
        ((createDID toyCrypto [] 5).1.id ++ "#credential-1") 18 25 7
      = (if 18 % p ≤ 25 % p ∧ toyCrypto.mimcF [25 % p, 7 % p] = toyCrypto.mimcF [25 % p, 7 % p]
         then .ok ⟨[18 % p, toyCrypto.mimcF [25 % p, 7 % p]]⟩
         else .error .proveFailed) :=
  ⟨by decide,
   (credential_duplicate_first_selected toyCrypto (createDID toyCrypto [] 5).2.2
      (createDID toyCrypto [] 5).1.id (createDID toyCrypto [] 5).1 (by decide) rfl
      25 7 30 9 18 25 7).2.2.2.2⟩

end DIDZK
